import Mathlib

/-!
Verification of the intent-classification and fallback-response core of the
Pneuma WhatsApp FAQ bot (`app.py`, class `PneumaFAQBot`).

Modelling choices (shallow embedding of the Python code):
* A message is a list of Unicode code points (`List Nat`); `str` converts a
  Lean string literal to this form so that the concrete keyword and trigger
  strings of the source can be written verbatim.
* `lowerNat` is the ASCII case mapping applied code point by code point,
  embedding `str.lower()` as used on the ASCII keywords of the catalog.
* Python's substring test `needle in hay` is `inStr`.
* Python's `dict` literals preserve insertion order, so each dict of the
  source becomes an association list in the same order; `dict.get(k, d)`
  becomes `(List.lookup k).getD d`, and iteration over `.items()` becomes
  iteration over the association list.
* `max(iterable, key=f)` returns the first element attaining the maximal key,
  scanning left to right and replacing the current best only on a strictly
  greater key; `pyMaxBySnd` reproduces this for the score lists used here.
* The OpenAI client is modelled by a flag `llmEnabled` (for `LLM_ENABLED`)
  and an oracle `llmCall` returning `Except String String`: `Except.error`
  stands for the external call raising any exception.
-/

set_option maxRecDepth 20000

/-- Code points of a string literal: the model of a Python `str` value. -/
def str (s : String) : List Nat :=
  s.data.map Char.toNat

/-- ASCII lowercasing of one code point, the per-character action of
`str.lower()` on the ASCII range. -/
def lowerNat (n : Nat) : Nat :=
  if 65 ≤ n ∧ n ≤ 90 then n + 32 else n

/-- Model of `message.lower()`. -/
def lowerStr (m : List Nat) : List Nat :=
  m.map lowerNat

/-- Model of Python's `needle in hay` substring containment test. -/
def inStr (needle : List Nat) : List Nat → Bool
  | [] => needle.isEmpty
  | c :: rest => needle.isPrefixOf (c :: rest) || inStr needle rest

/-- Keyword list of the `deals_and_offers` intent (`app.py` line 33). -/
def deals_keywords : List (List Nat) :=
  [str "deal", str "offer", str "discount", str "save",
   str "sweet", str "special", str "promo", str "coupon"]

/-- Keyword list of the `mileage_and_rewards` intent (`app.py` line 58). -/
def mileage_keywords : List (List Nat) :=
  [str "mile", str "point", str "transfer", str "redeem",
   str "reward", str "loyalty", str "earn", str "accumulate"]

/-- Keyword list of the `account_and_setup` intent (`app.py` line 86). -/
def account_keywords : List (List Nat) :=
  [str "account", str "setup", str "sign up", str "register",
   str "login", str "getting started", str "how to", str "begin"]

/-- The intent catalog `self.intents`, keeping the insertion order of the
Python dict; only the keyword lists matter to classification. -/
def intents : List (String × List (List Nat)) :=
  [("deals_and_offers", deals_keywords),
   ("mileage_and_rewards", mileage_keywords),
   ("account_and_setup", account_keywords)]

/-- The inner loop of `classify_intent`: `score += 1` for each keyword that
occurs in the lowercased message. -/
def keywordScore (ml : List Nat) (kws : List (List Nat)) : Nat :=
  kws.foldl (fun s kw => if inStr kw ml then s + 1 else s) 0

/-- The `intent_scores` dict built by `classify_intent`, in insertion order. -/
def intentScores (m : List Nat) : List (String × Nat) :=
  intents.map (fun p => (p.1, keywordScore (lowerStr m) p.2))

/-- Python's `max` over a list of naturals (safe with initial 0). -/
def maxVal (l : List Nat) : Nat :=
  l.foldl max 0

/-- Python's `max(items, key=lambda x: x[1])`: scans left to right and keeps
the current best unless a strictly greater second component appears, so the
first element attaining the maximum wins. -/
def pyMaxBySnd : List (String × Nat) → String × Nat
  | [] => ("", 0)
  | p :: rest => rest.foldl (fun acc q => if q.2 > acc.2 then q else acc) p

/-- `PneumaFAQBot.classify_intent` (`app.py` lines 114-131). -/
def classify_intent (m : List Nat) : String :=
  let scores := intentScores m
  if maxVal (scores.map Prod.snd) = 0 then "account_and_setup"
  else (pyMaxBySnd scores).1

/-- One entry of the `mock_responses` dict: the `'default'` reply and the
`'keywords'` dict as an ordered association list of (trigger, reply). -/
structure MockEntry where
  dflt : String
  keyed : List (List Nat × String)
deriving DecidableEq

def deals_default : String :=
  "üî• Great question about deals! Here are today's sweet-spot offers:\n‚Ä¢ 25% off dining at partner restaurants\n‚Ä¢ Double points on travel bookings\n‚Ä¢ Flash electronics sale up to 40% off\n\nCheck the Pneuma app for the complete list - deals refresh daily! üì±"

def deals_today_reply : String :=
  "Today's hot deals include dining discounts, travel rewards, and tech savings! Open your Pneuma app to see all current sweet-spot offers. üéØ"

def deals_dining_reply : String :=
  "üçΩÔ∏è Dining deals are amazing right now - 25% off at top restaurants plus double points! Check the Deals section in your Pneuma app."

def deals_best_reply : String :=
  "Our best deals right now: Premium restaurant discounts, travel point multipliers, and electronics flash sales. All verified partners with real savings!"

def mileage_default : String :=
  "‚úàÔ∏è Transferring miles with Pneuma is simple:\n\n1. Open the Rewards section in your app\n2. Select 'Transfer Points'\n3. Choose your airline/hotel partner\n4. Enter amount and confirm\n\nTransfers process in 24-48 hours. Your current limits are visible in Account Settings."

def mileage_transfer_reply : String :=
  "Points transfer is easy! Go to Rewards ‚Üí Transfer Points in your app. Choose from 15+ airline and hotel partners. Most transfers complete within 24-48 hours."

def mileage_limit_reply : String :=
  "Transfer limits depend on your tier:\n‚Ä¢ Standard: 25,000 points/month\n‚Ä¢ Premium: 100,000 points/month\n‚Ä¢ Elite: Unlimited\n\nCheck Account ‚Üí Transfer Settings for your current limits."

def mileage_delta_reply : String :=
  "Yes! Delta is one of our top transfer partners. Typical ratio is 1:1 for points to SkyMiles. Transfer through the Rewards section in your Pneuma app."

def account_default : String :=
  "Welcome to Pneuma! üéâ Getting started is easy:\n\n1. Download the Pneuma app (iOS/Android)\n2. Sign up with email or phone\n3. Verify your account\n4. Start browsing deals and earning points!\n\nNeed help? Contact support@pneuma.com"

def account_sign_up_reply : String :=
  "Signing up is free and takes 2 minutes! Download the Pneuma app, enter your email/phone, verify your account, and you're ready to start saving! üöÄ"

def account_pneuma_reply : String :=
  "Pneuma helps you get maximum value from your spending through curated deals and rewards. We're your personal savings sidekick with trusted partner discounts! üòä"

def account_login_reply : String :=
  "Having trouble logging in? Try resetting your password in the app, or contact our support team at support@pneuma.com - they'll get you sorted quickly!"

/-- The `'deals_and_offers'` entry of `mock_responses` (`app.py` lines 162-169). -/
def deals_entry : MockEntry :=
  { dflt := deals_default
    keyed := [(str "today", deals_today_reply),
              (str "dining", deals_dining_reply),
              (str "best", deals_best_reply)] }

/-- The `'mileage_and_rewards'` entry of `mock_responses` (`app.py` lines 170-177). -/
def mileage_entry : MockEntry :=
  { dflt := mileage_default
    keyed := [(str "transfer", mileage_transfer_reply),
              (str "limit", mileage_limit_reply),
              (str "delta", mileage_delta_reply)] }

/-- The `'account_and_setup'` entry of `mock_responses` (`app.py` lines 178-185). -/
def account_entry : MockEntry :=
  { dflt := account_default
    keyed := [(str "sign up", account_sign_up_reply),
              (str "pneuma", account_pneuma_reply),
              (str "login", account_login_reply)] }

/-- The `mock_responses` dict of `get_mock_response`, in insertion order. -/
def mock_responses : List (String × MockEntry) :=
  [("deals_and_offers", deals_entry),
   ("mileage_and_rewards", mileage_entry),
   ("account_and_setup", account_entry)]

/-- `PneumaFAQBot.get_mock_response` (`app.py` lines 159-198): look the intent
up with `account_and_setup`'s entry as the `.get` default, then return the
reply of the first keyed trigger occurring in the lowercased message, else the
entry's default reply. -/
def get_mock_response (m : List Nat) (intent : String) : String :=
  let entry := (mock_responses.lookup intent).getD account_entry
  let ml := lowerStr m
  match entry.keyed.find? (fun kv => inStr kv.1 ml) with
  | some kv => kv.2
  | none => entry.dflt

/-- `PneumaFAQBot.generate_response` (`app.py` lines 133-157). `llmEnabled`
models `LLM_ENABLED` (and the client being present); `llmCall` models the
external OpenAI request, with `Except.error` standing for any raised
exception, which the source catches and downgrades to the mock response.
On success the source returns the content stripped of surrounding
whitespace (`.strip()`), modelled by `String.trim`. -/
def generate_response (llmEnabled : Bool)
    (llmCall : List Nat → String → Except String String)
    (m : List Nat) (intent : String) : String :=
  if llmEnabled = false then get_mock_response m intent
  else
    match llmCall m intent with
    | Except.ok content => content.trim
    | Except.error _ => get_mock_response m intent

/-- The dict returned by `process_message`: the failure dict carries no
`'intent'` key, hence the `Option`. -/
structure ProcessResult where
  success : Bool
  intent : Option String
  response : String
deriving DecidableEq

/-- `PneumaFAQBot.process_message` (`app.py` lines 200-220). In the model
`classify_intent` and `generate_response` are total, so the `except` branch
of the source (returning `success: False`) is unreachable and the function
always takes the `try` path. -/
def process_message (llmEnabled : Bool)
    (llmCall : List Nat → String → Except String String)
    (m : List Nat) : ProcessResult :=
  let intent := classify_intent m
  { success := true
    intent := some intent
    response := generate_response llmEnabled llmCall m intent }

/-- The set of canned replies the fallback table holds for an intent name:
the default reply together with all keyed reply values (the verification set
named by the spec). -/
def fallbackReplies (intent : String) : List String :=
  let e := (mock_responses.lookup intent).getD account_entry
  e.dflt :: e.keyed.map Prod.snd

/-- Following the spec's tie-break words: the first intent in catalog
iteration order whose score attains the maximum score. -/
def firstIntentWithMaxScore (m : List Nat) : String :=
  let scores := intentScores m
  let mx := maxVal (scores.map Prod.snd)
  ((scores.find? (fun p => p.2 == mx)).map Prod.fst).getD "account_and_setup"

lemma keywordScore_foldl_eq (ml : List Nat) (kws : List (List Nat)) (a : Nat)
    (h : ∀ kw ∈ kws, inStr kw ml = false) :
    kws.foldl (fun s kw => if inStr kw ml then s + 1 else s) a = a := by
  induction kws generalizing a with
  | nil => rfl
  | cons k ks ih =>
    have hk : inStr k ml = false := h k (List.mem_cons_self k ks)
    simp only [List.foldl_cons, hk, Bool.false_eq_true, if_false]
    exact ih a (fun kw hkw => h kw (List.mem_cons_of_mem k hkw))

lemma keywordScore_eq_zero (ml : List Nat) (kws : List (List Nat))
    (h : ∀ kw ∈ kws, inStr kw ml = false) : keywordScore ml kws = 0 :=
  keywordScore_foldl_eq ml kws 0 h

lemma lowerNat_idem (n : Nat) : lowerNat (lowerNat n) = lowerNat n := by
  unfold lowerNat
  split_ifs <;> omega

lemma lowerStr_idem (m : List Nat) : lowerStr (lowerStr m) = lowerStr m := by
  induction m with
  | nil => rfl
  | cons c cs ih =>
    simp only [lowerStr, List.map_cons] at *
    rw [lowerNat_idem, ih]

lemma find?_eq_get_of_first {α : Type} (p : α → Bool) (l : List α) (i : Fin l.length)
    (hp : p (l.get i) = true)
    (hbefore : ∀ j : Fin l.length, j.val < i.val → p (l.get j) = false) :
    l.find? p = some (l.get i) := by
  induction l with
  | nil => exact absurd i.isLt (by simp)
  | cons x xs ih =>
    cases i using Fin.cases with
    | zero =>
      simp only [List.get] at hp
      simp [List.find?, hp]
    | succ i' =>
      have hx : p x = false := hbefore ⟨0, Nat.succ_pos _⟩ (Nat.succ_pos _)
      simp only [List.find?, hx]
      have hp' : p (xs.get i') = true := hp
      exact ih i' hp' (fun j hj =>
        hbefore ⟨j.val + 1, Nat.succ_lt_succ j.isLt⟩ (Nat.succ_lt_succ hj))

lemma get_mock_response_mem_fallbackReplies (m : List Nat) (intent : String) :
    get_mock_response m intent ∈ fallbackReplies intent := by
  unfold get_mock_response fallbackReplies
  cases hf : ((mock_responses.lookup intent).getD account_entry).keyed.find?
      (fun kv => inStr kv.1 (lowerStr m)) with
  | none => simp [hf]
  | some kv =>
    have hmem := List.mem_of_find?_eq_some hf
    simp only [hf]
    exact List.mem_cons_of_mem _ (List.mem_map_of_mem Prod.snd hmem)

/-- C1: if no keyword of any intent in the catalog occurs in the lowercased
message (every intent scores zero), `classify_intent` returns the designated
default intent `account_and_setup`. -/
theorem classify_intent_default_when_no_keyword (m : List Nat)
    (h : ∀ p ∈ intents, ∀ kw ∈ p.2, inStr kw (lowerStr m) = false) :
    classify_intent m = "account_and_setup" := by
  have h1 : keywordScore (lowerStr m) deals_keywords = 0 :=
    keywordScore_eq_zero _ _ (h ("deals_and_offers", deals_keywords) (by simp [intents]))
  have h2 : keywordScore (lowerStr m) mileage_keywords = 0 :=
    keywordScore_eq_zero _ _ (h ("mileage_and_rewards", mileage_keywords) (by simp [intents]))
  have h3 : keywordScore (lowerStr m) account_keywords = 0 :=
    keywordScore_eq_zero _ _ (h ("account_and_setup", account_keywords) (by simp [intents]))
  simp [classify_intent, intentScores, intents, h1, h2, h3, maxVal]

/-- Witness for C1 at the spec's own no-keyword scenario message. -/
theorem classify_intent_default_when_no_keyword_witness :
    (∀ p ∈ intents, ∀ kw ∈ p.2, inStr kw (lowerStr (str "asdkjasd random text")) = false) ∧
    classify_intent (str "asdkjasd random text") = "account_and_setup" :=
  ⟨by decide, classify_intent_default_when_no_keyword (str "asdkjasd random text") (by decide)⟩

/-- C3: `classify_intent` is total and always returns the name of one of the
three catalog intents, for every input message. -/
theorem classify_intent_total (m : List Nat) :
    classify_intent m = "deals_and_offers" ∨
    classify_intent m = "mileage_and_rewards" ∨
    classify_intent m = "account_and_setup" := by
  by_cases hc : maxVal ((intentScores m).map Prod.snd) = 0
  · simp [classify_intent, hc]
  · simp only [classify_intent, hc, if_false]
    unfold intentScores intents pyMaxBySnd
    simp only [List.map_cons, List.map_nil, List.foldl_cons, List.foldl_nil]
    split_ifs <;> simp

/-- C5: an intent name absent from the fallback table is answered with the
designated default intent's (`account_and_setup`) fallback entries instead of
failing. -/
theorem get_mock_response_missing_intent (m : List Nat) (intent : String)
    (h : mock_responses.lookup intent = none) :
    get_mock_response m intent = get_mock_response m "account_and_setup" := by
  have hacc : mock_responses.lookup "account_and_setup" = some account_entry := by decide
  unfold get_mock_response
  rw [h, hacc]
  simp

/-- Witness for C5 at an intent name never produced by the classifier. -/
theorem get_mock_response_missing_intent_witness :
    mock_responses.lookup "bogus_intent" = none ∧
    get_mock_response (str "how do I transfer miles") "bogus_intent" =
      get_mock_response (str "how do I transfer miles") "account_and_setup" :=
  ⟨by decide, get_mock_response_missing_intent (str "how do I transfer miles") "bogus_intent" (by decide)⟩

/-- C6: the fallback responder is a pure deterministic total function —
identical `(message, intent)` arguments always yield the identical reply
string (in the embedding it is a function, so it has no side effects and
never fails). -/
theorem get_mock_response_pure (m₁ m₂ : List Nat) (i₁ i₂ : String)
    (hm : m₁ = m₂) (hi : i₁ = i₂) :
    get_mock_response m₁ i₁ = get_mock_response m₂ i₂ := by
  rw [hm, hi]

/-- Witness for C6 at a concrete repeated call. -/
theorem get_mock_response_pure_witness :
    str "what deals today" = str "what deals today" ∧
    ("deals_and_offers" : String) = "deals_and_offers" ∧
    get_mock_response (str "what deals today") "deals_and_offers" =
      get_mock_response (str "what deals today") "deals_and_offers" :=
  ⟨rfl, rfl, get_mock_response_pure _ _ _ _ rfl rfl⟩

/-- C10: classification and fallback depend on the message only through its
lowercased form: lowercasing the message first changes neither the chosen
intent nor the fallback reply. -/
theorem classify_and_mock_case_insensitive (m : List Nat) (intent : String) :
    classify_intent (lowerStr m) = classify_intent m ∧
    get_mock_response (lowerStr m) intent = get_mock_response m intent := by
  constructor
  · unfold classify_intent intentScores
    rw [lowerStr_idem]
  · unfold get_mock_response
    rw [lowerStr_idem]

lemma pyMax_first_max_three (n₁ n₂ n₃ : String) (a b c : Nat) :
    (pyMaxBySnd [(n₁, a), (n₂, b), (n₃, c)]).1 =
      ((([(n₁, a), (n₂, b), (n₃, c)] : List (String × Nat)).find?
          (fun p => p.2 == maxVal [a, b, c])).map Prod.fst).getD "account_and_setup" := by
  simp only [pyMaxBySnd, maxVal, List.foldl_cons, List.foldl_nil]
  by_cases h1 : b > a
  · rw [if_pos h1]
    by_cases h2 : c > b
    · rw [if_pos h2]
      rw [List.find?_cons_of_neg _ (by simp [beq_iff_eq]; omega),
          List.find?_cons_of_neg _ (by simp [beq_iff_eq]; omega),
          List.find?_cons_of_pos _ (by simp [beq_iff_eq]; omega)]
      rfl
    · rw [if_neg h2]
      rw [List.find?_cons_of_neg _ (by simp [beq_iff_eq]; omega),
          List.find?_cons_of_pos _ (by simp [beq_iff_eq]; omega)]
      rfl
  · rw [if_neg h1]
    by_cases h2 : c > a
    · rw [if_pos h2]
      rw [List.find?_cons_of_neg _ (by simp [beq_iff_eq]; omega),
          List.find?_cons_of_neg _ (by simp [beq_iff_eq]; omega),
          List.find?_cons_of_pos _ (by simp [beq_iff_eq]; omega)]
      rfl
    · rw [if_neg h2]
      rw [List.find?_cons_of_pos _ (by simp [beq_iff_eq]; omega)]
      rfl

/-- C2 (counterexample): on the empty message every intent scores zero, so
all three intents share the maximum score; the first tied intent in catalog
order is `deals_and_offers`, yet `classify_intent` returns the default intent
instead — the claim fails when the shared maximum is zero. -/
theorem classify_intent_tie_break_counterexample :
    2 ≤ ((intentScores (str "")).filter
        (fun p => p.2 == maxVal ((intentScores (str "")).map Prod.snd))).length ∧
    ((intentScores (str "")).find?
        (fun p => p.2 == maxVal ((intentScores (str "")).map Prod.snd))).map Prod.fst =
      some "deals_and_offers" ∧
    classify_intent (str "") ≠ "deals_and_offers" := by decide

/-- C2 (amended): if two or more intents share the maximum keyword-match
score and that maximum is nonzero, `classify_intent` returns the first tied
intent in catalog iteration order (when every intent scores zero the default
intent `account_and_setup` is returned instead, which is not first in catalog
order). -/
theorem classify_intent_tie_break (m : List Nat)
    (hmax : maxVal ((intentScores m).map Prod.snd) ≠ 0)
    (_htie : 2 ≤ ((intentScores m).filter
        (fun p => p.2 == maxVal ((intentScores m).map Prod.snd))).length) :
    classify_intent m = firstIntentWithMaxScore m := by
  have hscores : intentScores m =
      [("deals_and_offers", keywordScore (lowerStr m) deals_keywords),
       ("mileage_and_rewards", keywordScore (lowerStr m) mileage_keywords),
       ("account_and_setup", keywordScore (lowerStr m) account_keywords)] := by
    simp [intentScores, intents]
  rw [hscores] at hmax
  simp only [classify_intent, firstIntentWithMaxScore, hscores,
    List.map_cons, List.map_nil] at *
  rw [if_neg hmax]
  exact pyMax_first_max_three _ _ _ _ _ _

/-- Witness for C2 (amended) at a message where `deals_and_offers` and
`mileage_and_rewards` tie with one keyword match each. -/
theorem classify_intent_tie_break_witness :
    maxVal ((intentScores (str "deal point")).map Prod.snd) ≠ 0 ∧
    2 ≤ ((intentScores (str "deal point")).filter
        (fun p => p.2 == maxVal ((intentScores (str "deal point")).map Prod.snd))).length ∧
    classify_intent (str "deal point") = firstIntentWithMaxScore (str "deal point") :=
  ⟨by decide, by decide,
    classify_intent_tie_break (str "deal point") (by decide) (by decide)⟩

/-- C4: for an intent present in the fallback table, the responder returns
the reply of the first keyed trigger (in the insertion order of the entry's
keyed mapping) occurring in the lowercased message, and the entry's default
reply when no keyed trigger occurs. -/
theorem get_mock_response_keyed_order (m : List Nat) (intent : String) (e : MockEntry)
    (he : mock_responses.lookup intent = some e) :
    ((∀ kv ∈ e.keyed, inStr kv.1 (lowerStr m) = false) →
        get_mock_response m intent = e.dflt) ∧
    (∀ i : Fin e.keyed.length,
        inStr (e.keyed.get i).1 (lowerStr m) = true →
        (∀ j : Fin e.keyed.length, j.val < i.val → inStr (e.keyed.get j).1 (lowerStr m) = false) →
        get_mock_response m intent = (e.keyed.get i).2) := by
  unfold get_mock_response
  rw [he]
  constructor
  · intro hall
    have hnone : e.keyed.find? (fun kv => inStr kv.1 (lowerStr m)) = none := by
      rw [List.find?_eq_none]
      intro kv hkv
      simp [hall kv hkv]
    simp [hnone]
  · intro i hi hprev
    have hfind := find?_eq_get_of_first (fun kv => inStr kv.1 (lowerStr m)) e.keyed i hi hprev
    simp [hfind]

/-- Witness for C4: in the deals entry the trigger `today` is the first keyed
trigger and occurs in the message, so its reply is returned. -/
theorem get_mock_response_keyed_order_witness :
    mock_responses.lookup "deals_and_offers" = some deals_entry ∧
    inStr (deals_entry.keyed.get ⟨0, by decide⟩).1 (lowerStr (str "any deals today")) = true ∧
    get_mock_response (str "any deals today") "deals_and_offers" =
      (deals_entry.keyed.get ⟨0, by decide⟩).2 :=
  ⟨by decide, by decide,
    (get_mock_response_keyed_order (str "any deals today") "deals_and_offers" deals_entry
        (by decide)).2 ⟨0, by decide⟩ (by decide)
      (fun j hj => absurd hj (Nat.not_lt_zero _))⟩

/-- C7: with the generation capability unconfigured, `process_message`
returns success, the classified intent, and a reply belonging to the fallback
table of the classified intent (its default reply or one of its keyed reply
values), for every message and any modelled external call. -/
theorem process_message_unconfigured
    (llmCall : List Nat → String → Except String String) (m : List Nat) :
    (process_message false llmCall m).success = true ∧
    (process_message false llmCall m).intent = some (classify_intent m) ∧
    (process_message false llmCall m).response ∈ fallbackReplies (classify_intent m) := by
  refine ⟨?_, ?_, ?_⟩
  · simp only [process_message]
  · simp only [process_message]
  · simp only [process_message, generate_response, if_pos]
    exact get_mock_response_mem_fallbackReplies _ _

/-- C8: if the external generation call raises (modelled as `Except.error`),
the failure is absorbed: `process_message` still returns success with the
fallback reply for the classified intent, and the reply belongs to that
intent's fallback table. -/
theorem process_message_generation_failure
    (llmCall : List Nat → String → Except String String) (m : List Nat) (err : String)
    (h : llmCall m (classify_intent m) = Except.error err) :
    (process_message true llmCall m).success = true ∧
    (process_message true llmCall m).response = get_mock_response m (classify_intent m) ∧
    (process_message true llmCall m).response ∈ fallbackReplies (classify_intent m) := by
  have hres : (process_message true llmCall m).response =
      get_mock_response m (classify_intent m) := by
    simp only [process_message, generate_response, h]
    simp
  refine ⟨?_, hres, hres ▸ get_mock_response_mem_fallbackReplies _ _⟩
  simp only [process_message]

/-- Witness for C8: an external call that always times out is absorbed into
the fallback reply. -/
theorem process_message_generation_failure_witness :
    (fun (_ : List Nat) (_ : String) => (Except.error "timeout" : Except String String))
        (str "how do I transfer miles") (classify_intent (str "how do I transfer miles")) =
      Except.error "timeout" ∧
    (process_message true (fun _ _ => Except.error "timeout")
        (str "how do I transfer miles")).success = true ∧
    (process_message true (fun _ _ => Except.error "timeout")
          (str "how do I transfer miles")).response =
      get_mock_response (str "how do I transfer miles")
        (classify_intent (str "how do I transfer miles")) ∧
    (process_message true (fun _ _ => Except.error "timeout")
          (str "how do I transfer miles")).response ∈
      fallbackReplies (classify_intent (str "how do I transfer miles")) :=
  ⟨rfl, process_message_generation_failure (fun _ _ => Except.error "timeout")
    (str "how do I transfer miles") "timeout" rfl⟩

/-- C9 (counterexample): on the scenario message the classifier does pick
`mileage_and_rewards`, but the fallback responder does not return the reply
keyed by `delta`: the trigger `transfer` precedes `delta` in the keyed
mapping's insertion order and also occurs in the message, so its reply is
returned first. -/
theorem scenario_delta_counterexample :
    classify_intent (str "How do I transfer my miles to Delta?") = "mileage_and_rewards" ∧
    get_mock_response (str "How do I transfer my miles to Delta?") "mileage_and_rewards" ≠
      mileage_delta_reply := by decide

/-- C9 (amended): on the message `How do I transfer my miles to Delta?` the
classifier returns `mileage_and_rewards` (keywords `transfer` and `mile` both
match, the highest score), and with generation unconfigured the fallback
responder returns the reply keyed by `transfer`, the first keyed trigger in
insertion order that occurs in the message (the trigger `delta` also occurs
but is checked later). -/
theorem scenario_transfer_miles_delta :
    keywordScore (lowerStr (str "How do I transfer my miles to Delta?")) mileage_keywords = 2 ∧
    classify_intent (str "How do I transfer my miles to Delta?") = "mileage_and_rewards" ∧
    get_mock_response (str "How do I transfer my miles to Delta?") "mileage_and_rewards" =
      mileage_transfer_reply ∧
    (process_message false (fun _ _ => Except.error "")
          (str "How do I transfer my miles to Delta?")).response =
      mileage_transfer_reply := by decide

